import Mathlib

/-!
Verification of the MKL-to-TF layout conversion kernel
(`tensorflow/core/kernels/mkl_tfconv_op.cc`).

The kernel `MklToTfOp<Device, T>` converts a tensor carried in the MKL
optimized layout back to the standard TensorFlow layout.  Its `Compute`
method:
  1. passes the input tensor through unchanged when the attached `MklShape`
     is not an MKL tensor;
  2. otherwise checks `op_data_type == input_type(0)` and
     `op_data_type == output_type(0)` (`CHECK_EQ`, fatal on mismatch);
  3. rebuilds the output `TensorShape` by sorting the `(size, stride)`
     pairs of the `MklShape` with the comparator
     `a.second > b.second || (a.second == b.second && a.first > b.first)`
     and taking the sizes in sorted order;
  4. allocates the output tensor (`OP_REQUIRES_OK`: on failure the
     invocation returns with an error status and no output);
  5. calls `GetConvertedFlatData(GetTfLayout(), input_buffer, output_buffer)`
     exactly once.

We embed the data model and `Compute` shallowly: machine effects (the
output slot, allocation requests, conversion-primitive calls, the fatal
`CHECK_EQ` abort and the `OP_REQUIRES_OK` error status) are recorded in an
explicit effects record, and `Compute` is a pure function from the operator
state and an invocation context to the unchanged operator state paired with
the effects.
-/

/-- TensorFlow `DataType` enum values, abstracted as naturals. -/
abbrev DataType := Nat

/-- A tensor as this kernel observes it: element type, logical shape and an
identifier for its flat data buffer. -/
structure Tensor where
  dtype : DataType
  shape : List Int
  buffer : Nat
deriving DecidableEq

/-- The `MklShape` metadata attached to input 0: whether the tensor is in
MKL layout, the per-dimension sizes and strides (`GetSizes()`,
`GetStrides()`, both of length `GetDimension()`), and the precomputed
standard-layout handle returned by `GetTfLayout()`. -/
structure MklShape where
  isMklTensor : Bool
  sizes : List Int
  strides : List Int
  tfLayout : Nat
deriving DecidableEq

/-- `MklShape::GetDimension()`: the number of dimensions. -/
def MklShape.getDimension (s : MklShape) : Nat := s.sizes.length

/-- Descriptor well-formedness (spec, data model): the sizes and strides
sequences have the same length, one entry per logical dimension. -/
def MklShape.WF (s : MklShape) : Prop := s.strides.length = s.sizes.length

/-- The operator state: the two attributes read at construction
(`data_format` and `T`). -/
structure MklToTfOp where
  data_format_str : String
  op_data_type : DataType
deriving DecidableEq

/-- One call of the external conversion primitive
`MklShape::GetConvertedFlatData(output_layout, input_buffer, output_buffer)`. -/
structure ConvertCall where
  outputLayout : Nat
  inputBuffer : Nat
  outputBuffer : Nat
deriving DecidableEq

/-- The invocation context for slot 0: the input tensor and its `MklShape`,
the static input/output data types, whether the host allocator will satisfy
the output request, and the buffer id a successful allocation hands out. -/
structure OpKernelContext where
  inputTensor : Tensor
  inputMklShape : MklShape
  inputDataType : DataType
  outputDataType : DataType
  allocOk : Bool
  freshBuffer : Nat
deriving DecidableEq

/-- The observable effects of one `Compute` invocation: what was written to
output slot 0, the shapes requested from `allocate_output`, the calls made
to the conversion primitive, whether a `CHECK_EQ` aborted the process, and
whether `OP_REQUIRES_OK` recorded an error status. -/
structure ComputeEffects where
  output : Option Tensor
  allocRequests : List (List Int)
  convertCalls : List ConvertCall
  fatalError : Bool
  errorStatus : Bool
deriving DecidableEq

/-- The `std::sort` comparator from `Compute` on `(size, stride)` pairs:
`a.second > b.second || (a.second == b.second && a.first > b.first)`. -/
def pairCmp (a b : Int × Int) : Bool :=
  decide (a.2 > b.2) || (a.2 == b.2 && decide (a.1 > b.1))

/-- `tfOrder a b` holds when `a` may appear no later than `b` in a list
sorted with `pairCmp`, i.e. `b` does not strictly precede `a`.  This is the
non-strict order induced by the comparator. -/
def tfOrder (a b : Int × Int) : Prop := pairCmp b a = false

instance : DecidableRel tfOrder := fun _ _ => inferInstanceAs (Decidable (_ = false))

instance : IsTotal (Int × Int) tfOrder :=
  ⟨fun a b => by
    simp [tfOrder, pairCmp]
    omega⟩

instance : IsTrans (Int × Int) tfOrder :=
  ⟨fun a b c hab hbc => by
    simp [tfOrder, pairCmp] at hab hbc ⊢
    omega⟩

instance : IsAntisymm (Int × Int) tfOrder :=
  ⟨fun a b hab hba => by
    simp [tfOrder, pairCmp] at hab hba
    have h1 : a.1 = b.1 := by omega
    have h2 : a.2 = b.2 := by omega
    exact Prod.ext h1 h2⟩

/-- The `shape_size` vector built by `Compute`: the pair
`(GetSizes()[i], GetStrides()[i])` for each dimension `i`. -/
def shapeSizePairs (s : MklShape) : List (Int × Int) := s.sizes.zip s.strides

/-- The `std::sort` call of `Compute`.  `pairCmp` identifies exactly the
pairs that are equal, so the sorted permutation is unique and insertion
sort computes the same list `std::sort` produces. -/
def sortShapeSize (l : List (Int × Int)) : List (Int × Int) :=
  List.insertionSort tfOrder l

/-- The reconstructed output shape: the sizes of the sorted pairs, in
order (`output_shape.AddDim(s_s.first)` over the sorted vector). -/
def outputShapeOf (s : MklShape) : List Int :=
  (sortShapeSize (shapeSizePairs s)).map Prod.fst

/-- The spec's ordering rule, stated in its own words: `a` precedes `b`
when `a` has the strictly larger stride, or the strides are equal and `a`
has the larger (or equal) size. -/
def descStrideThenSize (a b : Int × Int) : Prop :=
  b.2 < a.2 ∨ (a.2 = b.2 ∧ b.1 ≤ a.1)

/-- Shallow embedding of `MklToTfOp::Compute`.  Returns the operator state
after the invocation (the method never writes `data_format_str` or
`op_data_type`) together with the observable effects. -/
def MklToTfOp.compute (op : MklToTfOp) (ctx : OpKernelContext) :
    MklToTfOp × ComputeEffects :=
  let input_tensor := ctx.inputTensor
  let input_shape := ctx.inputMklShape
  if !input_shape.isMklTensor then
    (op, { output := some input_tensor, allocRequests := [], convertCalls := [],
           fatalError := false, errorStatus := false })
  else if op.op_data_type = ctx.inputDataType ∧ op.op_data_type = ctx.outputDataType then
    let output_shape := outputShapeOf input_shape
    if ctx.allocOk then
      let output_tensor : Tensor :=
        { dtype := ctx.outputDataType, shape := output_shape, buffer := ctx.freshBuffer }
      (op, { output := some output_tensor,
             allocRequests := [output_shape],
             convertCalls := [{ outputLayout := input_shape.tfLayout,
                                inputBuffer := input_tensor.buffer,
                                outputBuffer := output_tensor.buffer }],
             fatalError := false, errorStatus := false })
    else
      (op, { output := none, allocRequests := [output_shape], convertCalls := [],
             fatalError := false, errorStatus := true })
  else
    (op, { output := none, allocRequests := [], convertCalls := [],
           fatalError := true, errorStatus := false })

/-- Example operator instance (`data_format` NHWC, `T` tag 1). -/
def exOp : MklToTfOp := { data_format_str := "NHWC", op_data_type := 1 }

/-- Example operator differing from `exOp` only in `data_format`. -/
def exOp2 : MklToTfOp := { data_format_str := "NCHW", op_data_type := 1 }

/-- Example MKL descriptor with the spec's pairs
`[(3,1), (4,12), (2,6)]`. -/
def exMklShape : MklShape :=
  { isMklTensor := true, sizes := [3, 4, 2], strides := [1, 12, 6], tfLayout := 5 }

/-- Example input tensor. -/
def exTensor : Tensor := { dtype := 1, shape := [3, 4, 2], buffer := 11 }

/-- Example conversion-path context. -/
def exCtx : OpKernelContext :=
  { inputTensor := exTensor, inputMklShape := exMklShape,
    inputDataType := 1, outputDataType := 1, allocOk := true, freshBuffer := 42 }

/-- Example pass-through context: the descriptor is not an MKL tensor, and
the declared output type even disagrees with the operator type. -/
def exCtxTf : OpKernelContext :=
  { inputTensor := exTensor,
    inputMklShape := { isMklTensor := false, sizes := [], strides := [], tfLayout := 0 },
    inputDataType := 1, outputDataType := 2, allocOk := true, freshBuffer := 42 }

/-- Example context with a type mismatch on the conversion path. -/
def exCtxBadType : OpKernelContext :=
  { inputTensor := exTensor, inputMklShape := exMklShape,
    inputDataType := 1, outputDataType := 2, allocOk := true, freshBuffer := 42 }

/-- Example context whose allocator refuses the output request. -/
def exCtxNoAlloc : OpKernelContext :=
  { inputTensor := exTensor, inputMklShape := exMklShape,
    inputDataType := 1, outputDataType := 1, allocOk := false, freshBuffer := 42 }

/-- Example zero-dimension MKL descriptor context. -/
def exCtxZeroDim : OpKernelContext :=
  { inputTensor := exTensor,
    inputMklShape := { isMklTensor := true, sizes := [], strides := [], tfLayout := 3 },
    inputDataType := 1, outputDataType := 1, allocOk := true, freshBuffer := 42 }

/-! ## General lemmas about the sort and the branches of `Compute` -/

theorem sortShapeSize_perm (l : List (Int × Int)) : (sortShapeSize l).Perm l :=
  List.perm_insertionSort tfOrder l

theorem sortShapeSize_sorted (l : List (Int × Int)) :
    List.Sorted tfOrder (sortShapeSize l) :=
  List.sorted_insertionSort tfOrder l

theorem tfOrder_imp_descStrideThenSize (a b : Int × Int) (h : tfOrder a b) :
    descStrideThenSize a b := by
  simp [tfOrder, pairCmp] at h
  simp [descStrideThenSize]
  omega

theorem map_fst_shapeSizePairs (s : MklShape) (h : s.WF) :
    (shapeSizePairs s).map Prod.fst = s.sizes :=
  List.map_fst_zip s.sizes s.strides (le_of_eq h.symm)

theorem compute_pass_through (op : MklToTfOp) (ctx : OpKernelContext)
    (h : ctx.inputMklShape.isMklTensor = false) :
    op.compute ctx =
      (op, { output := some ctx.inputTensor, allocRequests := [], convertCalls := [],
             fatalError := false, errorStatus := false }) := by
  simp [MklToTfOp.compute, h]

theorem compute_type_mismatch (op : MklToTfOp) (ctx : OpKernelContext)
    (h1 : ctx.inputMklShape.isMklTensor = true)
    (h2 : ¬(op.op_data_type = ctx.inputDataType ∧ op.op_data_type = ctx.outputDataType)) :
    op.compute ctx =
      (op, { output := none, allocRequests := [], convertCalls := [],
             fatalError := true, errorStatus := false }) := by
  simp [MklToTfOp.compute, h1, h2]

theorem compute_convert (op : MklToTfOp) (ctx : OpKernelContext)
    (h1 : ctx.inputMklShape.isMklTensor = true)
    (h2 : op.op_data_type = ctx.inputDataType)
    (h3 : op.op_data_type = ctx.outputDataType)
    (h4 : ctx.allocOk = true) :
    op.compute ctx =
      (op, { output := some { dtype := ctx.outputDataType,
                              shape := outputShapeOf ctx.inputMklShape,
                              buffer := ctx.freshBuffer },
             allocRequests := [outputShapeOf ctx.inputMklShape],
             convertCalls := [{ outputLayout := ctx.inputMklShape.tfLayout,
                                inputBuffer := ctx.inputTensor.buffer,
                                outputBuffer := ctx.freshBuffer }],
             fatalError := false, errorStatus := false }) := by
  simp [MklToTfOp.compute, h1, h2, h3, h4, h2.symm.trans h3]

theorem compute_alloc_fail (op : MklToTfOp) (ctx : OpKernelContext)
    (h1 : ctx.inputMklShape.isMklTensor = true)
    (h2 : op.op_data_type = ctx.inputDataType)
    (h3 : op.op_data_type = ctx.outputDataType)
    (h4 : ctx.allocOk = false) :
    op.compute ctx =
      (op, { output := none, allocRequests := [outputShapeOf ctx.inputMklShape],
             convertCalls := [], fatalError := false, errorStatus := true }) := by
  simp [MklToTfOp.compute, h1, h2, h3, h4, h2.symm.trans h3]

theorem compute_fst (op : MklToTfOp) (ctx : OpKernelContext) :
    (op.compute ctx).1 = op := by
  cases hm : ctx.inputMklShape.isMklTensor with
  | false => rw [compute_pass_through op ctx hm]
  | true =>
    by_cases ht : op.op_data_type = ctx.inputDataType ∧ op.op_data_type = ctx.outputDataType
    · cases ha : ctx.allocOk with
      | false => rw [compute_alloc_fail op ctx hm ht.1 ht.2 ha]
      | true => rw [compute_convert op ctx hm ht.1 ht.2 ha]
    · rw [compute_type_mismatch op ctx hm ht]

theorem outputShapeOf_perm_sizes (s : MklShape) (h : s.WF) :
    (outputShapeOf s).Perm s.sizes := by
  have hp := (sortShapeSize_perm (shapeSizePairs s)).map Prod.fst
  rw [map_fst_shapeSizePairs s h] at hp
  exact hp

/-! ## The claims -/

/-- Claim C1: for every input whose descriptor reports the optimized MKL
layout (with matching types and a successful allocation), `Compute` sets
the output tensor's shape to the descriptor's sizes taken in the order
given by sorting the (size, stride) pairs by descending stride, ties broken
by descending size, outermost first. -/
theorem C1_shape_reconstruction (op : MklToTfOp) (ctx : OpKernelContext)
    (h1 : ctx.inputMklShape.isMklTensor = true)
    (h2 : op.op_data_type = ctx.inputDataType)
    (h3 : op.op_data_type = ctx.outputDataType)
    (h4 : ctx.allocOk = true) :
    ∃ sorted : List (Int × Int),
      sorted.Perm (shapeSizePairs ctx.inputMklShape) ∧
      List.Pairwise descStrideThenSize sorted ∧
      ∃ out : Tensor, ((op.compute ctx).2).output = some out ∧
        out.shape = sorted.map Prod.fst := by
  refine ⟨sortShapeSize (shapeSizePairs ctx.inputMklShape),
    sortShapeSize_perm _, ?_, ?_⟩
  · exact List.Pairwise.imp (fun h => tfOrder_imp_descStrideThenSize _ _ h)
      (sortShapeSize_sorted _)
  · rw [compute_convert op ctx h1 h2 h3 h4]
    exact ⟨_, rfl, rfl⟩

/-- Witness for C1, at the spec's example: pairs `[(3,1),(4,12),(2,6)]`
yield output shape `[4,2,3]`. -/
theorem C1_shape_reconstruction_witness :
    (∃ sorted : List (Int × Int),
      sorted.Perm (shapeSizePairs exCtx.inputMklShape) ∧
      List.Pairwise descStrideThenSize sorted ∧
      ∃ out : Tensor, ((exOp.compute exCtx).2).output = some out ∧
        out.shape = sorted.map Prod.fst) ∧
    ((exOp.compute exCtx).2).output =
      some { dtype := 1, shape := [4, 2, 3], buffer := 42 } :=
  ⟨C1_shape_reconstruction exOp exCtx rfl rfl rfl rfl, by decide⟩

/-- Claim C2: when the descriptor reports the input is not an MKL tensor,
`Compute` sets output slot 0 to the very input tensor and returns: no
allocation request, no conversion call, no type check (the hypothesis says
nothing about the data types). -/
theorem C2_pass_through_identity (op : MklToTfOp) (ctx : OpKernelContext)
    (h : ctx.inputMklShape.isMklTensor = false) :
    (op.compute ctx).2 =
      { output := some ctx.inputTensor, allocRequests := [], convertCalls := [],
        fatalError := false, errorStatus := false } := by
  rw [compute_pass_through op ctx h]

/-- Witness for C2, on a context whose output type even disagrees with the
operator type: the input is still forwarded untouched. -/
theorem C2_pass_through_identity_witness :
    (exOp.compute exCtxTf).2 =
      { output := some exTensor, allocRequests := [], convertCalls := [],
        fatalError := false, errorStatus := false } :=
  C2_pass_through_identity exOp exCtxTf rfl

/-- Claim C3: on the conversion path, if the operator type tag, the input
type and the output type are not all equal, `Compute` aborts (fatal
`CHECK_EQ`) before any allocation or conversion, writing no output. -/
theorem C3_type_mismatch_aborts (op : MklToTfOp) (ctx : OpKernelContext)
    (h1 : ctx.inputMklShape.isMklTensor = true)
    (h2 : ¬(op.op_data_type = ctx.inputDataType ∧
            op.op_data_type = ctx.outputDataType)) :
    (op.compute ctx).2 =
      { output := none, allocRequests := [], convertCalls := [],
        fatalError := true, errorStatus := false } := by
  rw [compute_type_mismatch op ctx h1 h2]

/-- Witness for C3: operator tag 1 against output type 2. -/
theorem C3_type_mismatch_aborts_witness :
    (exOp.compute exCtxBadType).2 =
      { output := none, allocRequests := [], convertCalls := [],
        fatalError := true, errorStatus := false } :=
  C3_type_mismatch_aborts exOp exCtxBadType rfl (by decide)

/-- Claim C4: for every well-formed descriptor, the product of the
reconstructed shape's dimensions equals the product of the descriptor's
sizes: relayout gains and loses no elements. -/
theorem C4_element_count_preserved (s : MklShape) (h : s.WF) :
    (outputShapeOf s).prod = s.sizes.prod :=
  (outputShapeOf_perm_sizes s h).prod_eq

/-- Witness for C4 at the example descriptor: both products are 24. -/
theorem C4_element_count_preserved_witness :
    exMklShape.WF ∧ (outputShapeOf exMklShape).prod = exMklShape.sizes.prod :=
  ⟨rfl, C4_element_count_preserved exMklShape rfl⟩

/-- Claim C5: if the allocator refuses the output request, `Compute` aborts
the invocation with an error status, no output set and no conversion call. -/
theorem C5_alloc_failure_aborts (op : MklToTfOp) (ctx : OpKernelContext)
    (h1 : ctx.inputMklShape.isMklTensor = true)
    (h2 : op.op_data_type = ctx.inputDataType)
    (h3 : op.op_data_type = ctx.outputDataType)
    (h4 : ctx.allocOk = false) :
    (op.compute ctx).2 =
      { output := none, allocRequests := [outputShapeOf ctx.inputMklShape],
        convertCalls := [], fatalError := false, errorStatus := true } := by
  rw [compute_alloc_fail op ctx h1 h2 h3 h4]

/-- Witness for C5: a refused allocation leaves no output and makes no
conversion call. -/
theorem C5_alloc_failure_aborts_witness :
    (exOp.compute exCtxNoAlloc).2 =
      { output := none, allocRequests := [outputShapeOf exCtxNoAlloc.inputMklShape],
        convertCalls := [], fatalError := false, errorStatus := true } ∧
    outputShapeOf exCtxNoAlloc.inputMklShape = [4, 2, 3] :=
  ⟨C5_alloc_failure_aborts exOp exCtxNoAlloc rfl rfl rfl rfl, by decide⟩

/-- Claim C6: the comparator-induced ordering is a total order on (size,
stride) pairs: any two distinct pairs are strictly ordered one way, never
both ways, and a sorted permutation of a given list of pairs is unique. -/
theorem C6_total_order :
    (∀ a b : Int × Int, a ≠ b → pairCmp a b = true ∨ pairCmp b a = true) ∧
    (∀ a b : Int × Int, pairCmp a b = true → pairCmp b a = false) ∧
    (∀ l₁ l₂ : List (Int × Int), l₁.Perm l₂ →
      List.Sorted tfOrder l₁ → List.Sorted tfOrder l₂ → l₁ = l₂) := by
  refine ⟨?_, ?_, ?_⟩
  · intro a b hne
    by_contra hcon
    push_neg at hcon
    obtain ⟨hab, hba⟩ := hcon
    apply hne
    simp [pairCmp] at hab hba
    have h1 : a.1 = b.1 := by omega
    have h2 : a.2 = b.2 := by omega
    exact Prod.ext h1 h2
  · intro a b hab
    by_contra hba
    rw [Bool.not_eq_false] at hba
    simp [pairCmp] at hab hba
    omega
  · intro l₁ l₂ hp h₁ h₂
    exact List.eq_of_perm_of_sorted hp h₁ h₂

/-- Witness for C6 at the spec's stride-tie example `[(5,4),(2,4)]`, which
is its own unique sorted form. -/
theorem C6_total_order_witness :
    ([((5 : Int), (4 : Int)), ((2 : Int), (4 : Int))] : List (Int × Int)) =
      [(5, 4), (2, 4)] :=
  C6_total_order.2.2 _ _ (List.Perm.refl _) (by decide) (by decide)

/-- Claim C7: two invocations differing only in the operator's data-format
attribute produce identical effects; shape reconstruction never reads the
format attribute. -/
theorem C7_format_string_irrelevant (op₁ op₂ : MklToTfOp) (ctx : OpKernelContext)
    (h : op₁.op_data_type = op₂.op_data_type) :
    (op₁.compute ctx).2 = (op₂.compute ctx).2 := by
  cases hm : ctx.inputMklShape.isMklTensor with
  | false => rw [compute_pass_through op₁ ctx hm, compute_pass_through op₂ ctx hm]
  | true =>
    by_cases ht : op₁.op_data_type = ctx.inputDataType ∧
        op₁.op_data_type = ctx.outputDataType
    · cases ha : ctx.allocOk with
      | false =>
        rw [compute_alloc_fail op₁ ctx hm ht.1 ht.2 ha,
            compute_alloc_fail op₂ ctx hm (h ▸ ht.1) (h ▸ ht.2) ha]
      | true =>
        rw [compute_convert op₁ ctx hm ht.1 ht.2 ha,
            compute_convert op₂ ctx hm (h ▸ ht.1) (h ▸ ht.2) ha]
    · rw [compute_type_mismatch op₁ ctx hm ht,
          compute_type_mismatch op₂ ctx hm (by rw [← h]; exact ht)]

/-- Witness for C7: NHWC versus NCHW operators on the same context. -/
theorem C7_format_string_irrelevant_witness :
    (exOp.compute exCtx).2 = (exOp2.compute exCtx).2 :=
  C7_format_string_irrelevant exOp exOp2 exCtx rfl

/-- Claim C8: on the conversion path, `Compute` calls the conversion
primitive exactly once, with the input tensor's buffer as source, the
standard-layout handle stored in the input's descriptor as destination
layout, and the newly allocated output tensor's buffer as destination. -/
theorem C8_single_convert_call (op : MklToTfOp) (ctx : OpKernelContext)
    (h1 : ctx.inputMklShape.isMklTensor = true)
    (h2 : op.op_data_type = ctx.inputDataType)
    (h3 : op.op_data_type = ctx.outputDataType)
    (h4 : ctx.allocOk = true) :
    ∃ out : Tensor, ((op.compute ctx).2).output = some out ∧
      ((op.compute ctx).2).convertCalls =
        [{ outputLayout := ctx.inputMklShape.tfLayout,
           inputBuffer := ctx.inputTensor.buffer,
           outputBuffer := out.buffer }] := by
  rw [compute_convert op ctx h1 h2 h3 h4]
  exact ⟨_, rfl, rfl⟩

/-- Witness for C8: handle 5, source buffer 11, destination buffer 42. -/
theorem C8_single_convert_call_witness :
    (∃ out : Tensor, ((exOp.compute exCtx).2).output = some out ∧
      ((exOp.compute exCtx).2).convertCalls =
        [{ outputLayout := exCtx.inputMklShape.tfLayout,
           inputBuffer := exCtx.inputTensor.buffer,
           outputBuffer := out.buffer }]) ∧
    ((exOp.compute exCtx).2).convertCalls =
      [{ outputLayout := 5, inputBuffer := 11, outputBuffer := 42 }] :=
  ⟨C8_single_convert_call exOp exCtx rfl rfl rfl rfl, by decide⟩

/-- Claim C9: `Compute` leaves the operator state (the data-format string
and the type tag) unchanged, and a later invocation from that state behaves
exactly as from the original state: invocations are stateless. -/
theorem C9_compute_stateless (op : MklToTfOp) (ctx ctx₂ : OpKernelContext) :
    (op.compute ctx).1 = op ∧
    ((op.compute ctx).1).compute ctx₂ = op.compute ctx₂ := by
  refine ⟨compute_fst op ctx, ?_⟩
  rw [compute_fst op ctx]

/-- Claim C10: on the conversion path of a well-formed descriptor, the
output shape has exactly `GetDimension()` dimensions and is a permutation
of the descriptor's sizes; a zero-dimension descriptor yields a rank-0
shape. -/
theorem C10_shape_is_permutation_of_sizes (op : MklToTfOp) (ctx : OpKernelContext)
    (h1 : ctx.inputMklShape.isMklTensor = true)
    (h2 : op.op_data_type = ctx.inputDataType)
    (h3 : op.op_data_type = ctx.outputDataType)
    (h4 : ctx.allocOk = true)
    (hwf : ctx.inputMklShape.WF) :
    ∃ out : Tensor, ((op.compute ctx).2).output = some out ∧
      out.shape.Perm ctx.inputMklShape.sizes ∧
      out.shape.length = ctx.inputMklShape.getDimension := by
  rw [compute_convert op ctx h1 h2 h3 h4]
  exact ⟨_, rfl, outputShapeOf_perm_sizes ctx.inputMklShape hwf,
    (outputShapeOf_perm_sizes ctx.inputMklShape hwf).length_eq⟩

/-- Witness for C10 at a zero-dimension descriptor: the output is rank 0. -/
theorem C10_shape_is_permutation_of_sizes_witness :
    (∃ out : Tensor, ((exOp.compute exCtxZeroDim).2).output = some out ∧
      out.shape.Perm exCtxZeroDim.inputMklShape.sizes ∧
      out.shape.length = exCtxZeroDim.inputMklShape.getDimension) ∧
    ((exOp.compute exCtxZeroDim).2).output =
      some { dtype := 1, shape := [], buffer := 42 } :=
  ⟨C10_shape_is_permutation_of_sizes exOp exCtxZeroDim rfl rfl rfl rfl rfl,
    by decide⟩
